import Mathlib

/-!
Verification of the clan-activity analysis core.

Shallow embedding of the classification and aggregation pipeline:
`parse_datetime` (src/api.py), `classify_member`, `analyze_members`,
`get_at_risk_members`, `get_retention_rates`, `get_activity_buckets`
(src/analysis.py).

Modelling conventions:
- Instants are integers counting microseconds since the Unix epoch.
  A Python `datetime` is a pair of its naive wall-clock value (in
  microseconds) and an optional UTC offset (`tzinfo`); `none` models a
  timezone-naive datetime.  `datetime.now(timezone.utc)` is threaded in
  as an explicit `now : Int` parameter (an aware UTC instant).
- Python `float` quantities (ehp/ehb, percentages, health score) are
  modelled as exact rationals (`Rat`).
- Python dicts holding heterogeneous records are modelled as structures
  whose `Option` fields record key absence; `dict.get` with a default
  becomes `Option.getD`, and Python's falsy `or` chains are modelled
  explicitly where the distinction matters (empty strings).
- A Python function that can raise is modelled as returning `Option`;
  a `try/except` returning `None` becomes propagation of `none`.
-/

/-- Microseconds in one day; `timedelta.days` floor-divides by this. -/
def usPerDay : Int := 86400000000

/-- Model of a Python `datetime`: naive wall-clock microseconds plus an
optional UTC offset in microseconds (`none` = naive, no `tzinfo`). -/
structure PyDatetime where
  wall : Int
  tzoffset : Option Int
deriving DecidableEq

/-- The aware UTC instant denoted by a datetime (naive treated as offset 0). -/
def instantOf (dt : PyDatetime) : Int := dt.wall - dt.tzoffset.getD 0

/-- Value of an ASCII digit character, if it is one. -/
def digitVal (c : Char) : Option Nat :=
  if '0' ≤ c && c ≤ '9' then some (c.toNat - '0'.toNat) else none

/-- Two-digit field. -/
def parse2 (a b : Char) : Option Nat := do
  let x ← digitVal a
  let y ← digitVal b
  pure (10 * x + y)

/-- Four-digit field. -/
def parse4 (a b c d : Char) : Option Nat := do
  let x ← digitVal a
  let y ← digitVal b
  let z ← digitVal c
  let w ← digitVal d
  pure (1000 * x + 100 * y + 10 * z + w)

/-- Gregorian leap-year test. -/
def isLeap (y : Int) : Bool := (y % 4 == 0 && y % 100 != 0) || (y % 400 == 0)

/-- Length of a month in the proleptic Gregorian calendar. -/
def daysInMonth (y m : Int) : Int :=
  if m = 2 then (if isLeap y then 29 else 28)
  else if m = 4 ∨ m = 6 ∨ m = 9 ∨ m = 11 then 30
  else 31

/-- Days from the Unix epoch to the civil date `y-m-d`
(standard era/year-of-era computation over the Gregorian calendar). -/
def daysFromCivil (y m d : Int) : Int :=
  let y' := if m ≤ 2 then y - 1 else y
  let era := Int.fdiv y' 400
  let yoe := y' - era * 400
  let mp := (m + 9) % 12
  let doy := Int.fdiv (153 * mp + 2) 5 + d - 1
  let doe := yoe * 365 + Int.fdiv yoe 4 - Int.fdiv yoe 100 + doy
  era * 146097 + doe - 719468

/-- Fractional-seconds field: exactly 3 or 6 digits, in microseconds.
Modelled from the spec: CPython's pre-3.11 `fromisoformat` grammar, which
`parse_datetime` (src/api.py) delegates to and which is not repository code. -/
def parseFrac : List Char → Option Nat
  | [a, b, c] => do
      let x ← digitVal a
      let y ← digitVal b
      let z ← digitVal c
      pure ((100 * x + 10 * y + z) * 1000)
  | [a, b, c, d, e, f] => do
      let x ← digitVal a
      let y ← digitVal b
      let z ← digitVal c
      let u ← digitVal d
      let v ← digitVal e
      let w ← digitVal f
      pure (100000 * x + 10000 * y + 1000 * z + 100 * u + 10 * v + w)
  | _ => none

/-- Validate time-of-day components and convert to microseconds. -/
def mkTimeUs (h m s us : Nat) : Option Int :=
  if h ≤ 23 && m ≤ 59 && s ≤ 59 then
    some (((h * 3600 + m * 60 + s : Nat) : Int) * 1000000 + (us : Int))
  else none

/-- Time-of-day in the forms `HH`, `HH:MM`, `HH:MM:SS`, `HH:MM:SS.fff`,
`HH:MM:SS.ffffff`; microseconds within the day.
Modelled from the spec: CPython's pre-3.11 `fromisoformat` time grammar. -/
def parseTimeOfDay : List Char → Option Int
  | [h1, h2] => do
      let h ← parse2 h1 h2
      mkTimeUs h 0 0 0
  | [h1, h2, ':', m1, m2] => do
      let h ← parse2 h1 h2
      let m ← parse2 m1 m2
      mkTimeUs h m 0 0
  | [h1, h2, ':', m1, m2, ':', s1, s2] => do
      let h ← parse2 h1 h2
      let m ← parse2 m1 m2
      let s ← parse2 s1 s2
      mkTimeUs h m s 0
  | h1 :: h2 :: ':' :: m1 :: m2 :: ':' :: s1 :: s2 :: '.' :: frac => do
      let h ← parse2 h1 h2
      let m ← parse2 m1 m2
      let s ← parse2 s1 s2
      let us ← parseFrac frac
      mkTimeUs h m s us
  | _ => none

/-- Magnitude of a UTC offset, `HH:MM` or `HH:MM:SS`, in microseconds. -/
def parseOffsetMag : List Char → Option Int
  | [h1, h2, ':', m1, m2] => do
      let h ← parse2 h1 h2
      let m ← parse2 m1 m2
      mkTimeUs h m 0 0
  | [h1, h2, ':', m1, m2, ':', s1, s2] => do
      let h ← parse2 h1 h2
      let m ← parse2 m1 m2
      let s ← parse2 s1 s2
      mkTimeUs h m s 0
  | _ => none

/-- Split a character list at the first occurrence of `c`, if present. -/
def splitAtFirst (c : Char) : List Char → Option (List Char × List Char)
  | [] => none
  | x :: xs =>
      if x = c then some ([], xs)
      else (splitAtFirst c xs).map (fun p => (x :: p.1, p.2))

/-- Split the time substring from a trailing signed offset: the first `-`
if any, else the first `+` (mirroring CPython's time/offset split).
The `Bool` is `true` for a negative offset. -/
def splitTz (tstr : List Char) : List Char × Option (Bool × List Char) :=
  match splitAtFirst '-' tstr with
  | some (t, z) => (t, some (true, z))
  | none =>
      match splitAtFirst '+' tstr with
      | some (t, z) => (t, some (false, z))
      | none => (tstr, none)

/-- Modelled from the spec: CPython's (pre-3.11) `datetime.fromisoformat`,
the standard-library routine invoked by `parse_datetime` in src/api.py and
not itself repository code.  Accepts `YYYY-MM-DD[*HH[:MM[:SS[.fff[fff]]]]]`
with an optional `±HH:MM[:SS]` offset; `none` models `ValueError`. -/
def fromisoformat (cs : List Char) : Option PyDatetime :=
  match cs with
  | y1 :: y2 :: y3 :: y4 :: '-' :: m1 :: m2 :: '-' :: d1 :: d2 :: rest => do
      let y ← parse4 y1 y2 y3 y4
      let mo ← parse2 m1 m2
      let dy ← parse2 d1 d2
      if 1 ≤ y ∧ 1 ≤ mo ∧ mo ≤ 12 ∧ 1 ≤ dy ∧ (dy : Int) ≤ daysInMonth (y : Int) (mo : Int) then
        let dateUs := daysFromCivil (y : Int) (mo : Int) (dy : Int) * usPerDay
        match rest with
        | [] => some ⟨dateUs, none⟩
        | _sep :: tcs =>
            let (tstr, tz) := splitTz tcs
            do
              let timeUs ← parseTimeOfDay tstr
              match tz with
              | none => some ⟨dateUs + timeUs, none⟩
              | some (neg, zcs) => do
                  let mag ← parseOffsetMag zcs
                  some ⟨dateUs + timeUs, some (if neg then -mag else mag)⟩
      else none
  | _ => none

/-- `parse_datetime` from src/api.py: `None`/empty input yields `none`,
a trailing literal `Z` is rewritten to `+00:00`, and any parse failure
(Python `ValueError`/`AttributeError`) is caught and mapped to `none`. -/
def parse_datetime (value : Option String) : Option PyDatetime :=
  match value with
  | none => none
  | some v =>
      let cs := v.data
      if cs = [] then none
      else if cs.getLast? = some 'Z' then
        fromisoformat (cs.dropLast ++ ['+', '0', '0', ':', '0', '0'])
      else fromisoformat cs

example : parse_datetime (some "2024-03-05T06:30:00Z") =
    some ⟨(19787 * 86400 + 6 * 3600 + 30 * 60) * 1000000, some 0⟩ := by decide
example : (parse_datetime (some "2024-03-05T06:30:00")).map PyDatetime.tzoffset =
    some none := by decide
example : parse_datetime (some "not a date") = none := by decide
example : (parse_datetime (some "2023-01-01T00:00:00.000Z")).isSome = true := by decide
example : parse_datetime (some "") = none := by decide
example : (parse_datetime (some "2024-03-05T06:30:00-05:30")).map PyDatetime.tzoffset =
    some (some (-(5 * 3600 + 30 * 60) * 1000000)) := by decide

/-! ## Classifier (src/analysis.py, `classify_member`) -/

/-- Activity thresholds: the `'active'`, `'at_risk'`, `'inactive'` day
limits read from the thresholds dict. -/
structure Thresholds where
  active : Int
  at_risk : Int
  inactive : Int
deriving DecidableEq

/-- `MemberStatus` dataclass from src/analysis.py. -/
structure MemberStatus where
  status : String
  days_inactive : Int
  color : String
deriving DecidableEq

/-- A Python `dict[str, str]` with `get`-with-default access. -/
def dictGetD (d : List (String × String)) (k dflt : String) : String :=
  match d.find? (fun p => p.1 == k) with
  | some p => p.2
  | none => dflt

/-- The `tzinfo is None` fix-up in `classify_member`: a naive datetime is
given the UTC zone (`replace(tzinfo=timezone.utc)`). -/
def fixTz (dt : PyDatetime) : PyDatetime :=
  if dt.tzoffset.isNone then { dt with tzoffset := some 0 } else dt

/-- `(now - last_changed).days`: Python `timedelta.days` floor-divides the
signed microsecond difference by one day. -/
def days_since (now : Int) (dt : PyDatetime) : Int :=
  Int.fdiv (now - instantOf (fixTz dt)) usPerDay

/-- The threshold cascade of `classify_member`. -/
def statusForDays (days : Int) (thresholds : Thresholds) : String :=
  if days ≤ thresholds.active then "active"
  else if days ≤ thresholds.at_risk then "at_risk"
  else if days ≤ thresholds.inactive then "inactive"
  else "churned"

/-- `classify_member` from src/analysis.py, with `datetime.now(timezone.utc)`
threaded in as the explicit parameter `now`. -/
def classify_member (last_changed : Option PyDatetime) (now : Int)
    (thresholds : Thresholds) (colors : List (String × String)) : MemberStatus :=
  match last_changed with
  | none => ⟨"unknown", -1, dictGetD colors "unknown" "#95a5a6"⟩
  | some lc =>
      let days := days_since now lc
      let status := statusForDays days thresholds
      ⟨status, days, dictGetD colors status "#95a5a6"⟩

/-! ## Aggregator (src/analysis.py, `analyze_members`) -/

/-- The `player` sub-dict of a raw WOM roster entry; `Option` fields model
key absence (or a JSON `null` value). -/
structure Player where
  status : Option String
  exp : Option Int
  displayName : Option String
  username : Option String
  id : Option Int
  type : Option String
  build : Option String
  ehp : Option Rat
  ehb : Option Rat
  lastChangedAt : Option String
deriving DecidableEq

/-- A raw roster entry: the `player` dict, the top-level `role` key, and
the `membership.role` key. -/
structure Entry where
  player : Player
  role : Option String
  membershipRole : Option String
deriving DecidableEq

/-- The six-key counts dict of `analyze_members`. -/
structure Counts where
  active : Nat
  at_risk : Nat
  inactive : Nat
  churned : Nat
  unknown : Nat
  untracked : Nat
deriving DecidableEq

/-- All-zero counts, the dict literal at the top of `analyze_members`. -/
def Counts.zero : Counts := ⟨0, 0, 0, 0, 0, 0⟩

/-- `counts[s] += 1`; an unrecognized key leaves the counts unchanged
(unreachable from `classify_member`, whose statuses are the five below). -/
def Counts.inc (c : Counts) (s : String) : Counts :=
  if s = "active" then { c with active := c.active + 1 }
  else if s = "at_risk" then { c with at_risk := c.at_risk + 1 }
  else if s = "inactive" then { c with inactive := c.inactive + 1 }
  else if s = "churned" then { c with churned := c.churned + 1 }
  else if s = "unknown" then { c with unknown := c.unknown + 1 }
  else if s = "untracked" then { c with untracked := c.untracked + 1 }
  else c

/-- Sum of the six count values. -/
def Counts.total (c : Counts) : Nat :=
  c.active + c.at_risk + c.inactive + c.churned + c.unknown + c.untracked

/-- One member dict of the output `members` list. -/
structure MemberOut where
  username : String
  player_id : Option Int
  role : String
  xp : Int
  ehp : Rat
  ehb : Rat
  type : String
  build : String
  status : String
  days_inactive : Int
  color : String
  last_changed : Option PyDatetime
deriving DecidableEq

/-- Python's falsy `or` on strings: `a or b` with `None` and `""` falsy. -/
def orStr (a : Option String) (b : String) : String :=
  match a with
  | some s => if s = "" then b else s
  | none => b

/-- `player.get("displayName") or player.get("username") or "Unknown"`. -/
def usernameOf (p : Player) : String := orStr p.displayName (orStr p.username "Unknown")

/-- The untracked branch: `entry.get("membership", {}).get("role") or
entry.get("role", "member")`. -/
def untrackedRole (e : Entry) : String := orStr e.membershipRole (e.role.getD "member")

/-- `player_status == "untracked" or xp is None`: the untracked test of
`analyze_members` (with `player.get("status", "active")`). -/
def entryIsUntracked (e : Entry) : Bool :=
  e.player.status.getD "active" == "untracked" || e.player.exp.isNone

/-- The member dict appended for an untracked entry. -/
def untrackedMember (e : Entry) (colors : List (String × String)) : MemberOut :=
  { username := usernameOf e.player
    player_id := e.player.id
    role := untrackedRole e
    xp := 0
    ehp := 0
    ehb := 0
    type := e.player.type.getD "unknown"
    build := e.player.build.getD "unknown"
    status := "untracked"
    days_inactive := -1
    color := dictGetD colors "untracked" "#6c757d"
    last_changed := none }

/-- The member dict appended for a tracked entry. -/
def trackedMember (e : Entry) (ms : MemberStatus) (lc : Option PyDatetime) : MemberOut :=
  { username := usernameOf e.player
    player_id := e.player.id
    role := e.role.getD "member"
    xp := e.player.exp.getD 0
    ehp := e.player.ehp.getD 0
    ehb := e.player.ehb.getD 0
    type := e.player.type.getD "regular"
    build := e.player.build.getD "main"
    status := ms.status
    days_inactive := ms.days_inactive
    color := ms.color
    last_changed := lc }

/-- Accumulator of the `for entry in raw_members` loop. -/
structure LoopState where
  counts : Counts
  totalsXp : Int
  totalsEhp : Rat
  totalsEhb : Rat
  members : List MemberOut
deriving DecidableEq

/-- One iteration of the loop body of `analyze_members`. -/
def loopStep (now : Int) (thresholds : Thresholds) (colors : List (String × String))
    (st : LoopState) (e : Entry) : LoopState :=
  if entryIsUntracked e then
    { counts := { st.counts with untracked := st.counts.untracked + 1 }
      totalsXp := st.totalsXp
      totalsEhp := st.totalsEhp
      totalsEhb := st.totalsEhb
      members := st.members ++ [untrackedMember e colors] }
  else
    let last_changed := parse_datetime e.player.lastChangedAt
    let ms := classify_member last_changed now thresholds colors
    { counts := st.counts.inc ms.status
      totalsXp := st.totalsXp + e.player.exp.getD 0
      totalsEhp := st.totalsEhp + e.player.ehp.getD 0
      totalsEhb := st.totalsEhb + e.player.ehb.getD 0
      members := st.members ++ [trackedMember e ms last_changed] }

/-- The five weights of the health score. -/
def weightTotal (c : Counts) : Nat :=
  100 * c.active + 50 * c.at_risk + 20 * c.inactive + 0 * c.churned + 25 * c.unknown

/-- The returned summary dict of `analyze_members`. -/
structure Summary where
  members : List MemberOut
  counts : Counts
  pct_active : Rat
  pct_at_risk : Rat
  pct_inactive : Rat
  pct_churned : Rat
  pct_unknown : Rat
  pct_untracked : Rat
  totals_xp : Int
  totals_ehp : Rat
  totals_ehb : Rat
  avg_xp : Rat
  avg_ehp : Rat
  avg_ehb : Rat
  health_score : Rat
  total_members : Nat
  tracked_members : Int
deriving DecidableEq

/-- `analyze_members` from src/analysis.py (with the explicit `now`).
`total` is `len(members) or 1`; `tracked = total - counts["untracked"]`;
health divides the weighted counts by `tracked` when positive. -/
def analyze_members (raw_members : List Entry) (now : Int)
    (thresholds : Thresholds) (colors : List (String × String)) : Summary :=
  let st := raw_members.foldl (loopStep now thresholds colors)
    ⟨Counts.zero, 0, 0, 0, []⟩
  let total : Nat := if st.members.length = 0 then 1 else st.members.length
  let tracked : Int := (total : Int) - (st.counts.untracked : Int)
  let health : Rat :=
    if 0 < tracked then (weightTotal st.counts : Rat) / (tracked : Rat) else 0
  { members := st.members
    counts := st.counts
    pct_active := (st.counts.active : Rat) / (total : Rat) * 100
    pct_at_risk := (st.counts.at_risk : Rat) / (total : Rat) * 100
    pct_inactive := (st.counts.inactive : Rat) / (total : Rat) * 100
    pct_churned := (st.counts.churned : Rat) / (total : Rat) * 100
    pct_unknown := (st.counts.unknown : Rat) / (total : Rat) * 100
    pct_untracked := (st.counts.untracked : Rat) / (total : Rat) * 100
    totals_xp := st.totalsXp
    totals_ehp := st.totalsEhp
    totals_ehb := st.totalsEhb
    avg_xp := if 0 < tracked then (st.totalsXp : Rat) / (tracked : Rat) else 0
    avg_ehp := if 0 < tracked then st.totalsEhp / (tracked : Rat) else 0
    avg_ehb := if 0 < tracked then st.totalsEhb / (tracked : Rat) else 0
    health_score := health
    total_members := total
    tracked_members := tracked }

/-! ## Segmenters (src/analysis.py) -/

/-- The churn-risk filter predicate `min_days <= m["days_inactive"] <= max_days`. -/
def atRiskPred (min_days max_days : Int) (m : MemberOut) : Bool :=
  decide (min_days ≤ m.days_inactive) && decide (m.days_inactive ≤ max_days)

/-- Descending-by-`days_inactive` ordering used by the churn-risk sort. -/
def riskOrder (a b : MemberOut) : Prop := b.days_inactive ≤ a.days_inactive

instance : DecidableRel riskOrder := fun a b => by
  unfold riskOrder; infer_instance

instance : IsTotal MemberOut riskOrder :=
  ⟨fun a b => le_total b.days_inactive a.days_inactive⟩

instance : IsTrans MemberOut riskOrder :=
  ⟨fun _ _ _ hab hbc => le_trans hbc hab⟩

/-- `get_at_risk_members` from src/analysis.py: filter then a stable
descending sort (Python's `sorted(..., reverse=True)` is stable; the
insertion sort below is its extensional equal). -/
def get_at_risk_members (members : List MemberOut)
    (min_days : Int := 14) (max_days : Int := 90) : List MemberOut :=
  List.insertionSort riskOrder (members.filter (atRiskPred min_days max_days))

/-- `get_retention_rates` from src/analysis.py; the returned dict is
modelled as the association list of its insertions. -/
def get_retention_rates (members : List MemberOut) (periods : List Int) :
    List (Int × Rat) :=
  let total : Nat := if members.length = 0 then 1 else members.length
  periods.map (fun days =>
    (days,
      (members.countP (fun m =>
        decide (0 ≤ m.days_inactive) && decide (m.days_inactive ≤ days)) : Rat)
        / (total : Rat) * 100))

/-- One histogram row of `get_activity_buckets`. -/
structure Bucket where
  label : String
  count : Nat
  pct : Rat
deriving DecidableEq

/-- The fixed bucket boundary table of `get_activity_buckets`. -/
def bucketBounds : List (Int × Int × String) :=
  [(0, 7, "0-7d"), (8, 14, "8-14d"), (15, 30, "15-30d"), (31, 60, "31-60d"),
   (61, 90, "61-90d"), (91, 180, "91-180d"), (181, 365, "181-365d"),
   (366, 9999, "1y+")]

/-- `get_activity_buckets` from src/analysis.py.  The Python code reads
`m.get("days_inactive", 9999)`; member dicts produced by `analyze_members`
always carry the key, so the field is read directly. -/
def get_activity_buckets (members : List MemberOut) : List Bucket :=
  let total : Nat := if members.length = 0 then 1 else members.length
  bucketBounds.map (fun b =>
    let count := members.countP (fun m =>
      decide (b.1 ≤ m.days_inactive) && decide (m.days_inactive ≤ b.2.1))
    { label := b.2.2, count := count, pct := (count : Rat) / (total : Rat) * 100 })

/-! Concrete fixtures and sanity checks against the spec's worked scenarios. -/

/-- Default thresholds `{active: 7, at_risk: 30, inactive: 90}`. -/
def th0 : Thresholds := ⟨7, 30, 90⟩

/-- A tracked test entry with the given last-activity timestamp. -/
def mkTestEntry (lastAt : Option String) : Entry :=
  ⟨⟨none, some 100, some "A", none, none, none, none, some 1, some 2, lastAt⟩,
   some "member", none⟩

/-- An entry explicitly flagged untracked (and with no stats). -/
def untrackedEntry : Entry :=
  ⟨⟨some "untracked", none, some "U", none, none, none, none, none, none,
    some "2024-03-05T06:30:00Z"⟩, none, none⟩

example :
    (analyze_members
      [mkTestEntry (some "1970-07-18T00:00:00+00:00"),
       mkTestEntry (some "1970-06-30T00:00:00+00:00"),
       mkTestEntry (some "1970-01-01T00:00:00+00:00")]
      (200 * usPerDay) th0 []).counts = ⟨1, 1, 0, 1, 0, 0⟩ := by decide

example : weightTotal ⟨1, 1, 0, 1, 0, 0⟩ = 150 := by decide

example :
    (analyze_members [untrackedEntry, mkTestEntry (some "1970-07-19T00:00:00Z")]
      (200 * usPerDay) th0 []).total_members = 2 ∧
    (analyze_members [untrackedEntry, mkTestEntry (some "1970-07-19T00:00:00Z")]
      (200 * usPerDay) th0 []).tracked_members = 1 ∧
    (analyze_members [untrackedEntry, mkTestEntry (some "1970-07-19T00:00:00Z")]
      (200 * usPerDay) th0 []).counts = ⟨1, 0, 0, 0, 0, 1⟩ := by decide

example : (analyze_members [] 0 th0 []).total_members = 1 := by decide
example : (analyze_members [] 0 th0 []).counts = Counts.zero := by decide

/-! ## Aggregator loop characterization -/

/-- The member record produced by one loop iteration for entry `e`. -/
def mkMember (now : Int) (thresholds : Thresholds) (colors : List (String × String))
    (e : Entry) : MemberOut :=
  if entryIsUntracked e then untrackedMember e colors
  else
    trackedMember e
      (classify_member (parse_datetime e.player.lastChangedAt) now thresholds colors)
      (parse_datetime e.player.lastChangedAt)

/-- Contribution of entry `e` to the xp total (untracked entries contribute 0). -/
def entryXp (e : Entry) : Int :=
  if entryIsUntracked e then 0 else e.player.exp.getD 0

/-- Contribution of entry `e` to the ehp total. -/
def entryEhp (e : Entry) : Rat :=
  if entryIsUntracked e then 0 else e.player.ehp.getD 0

/-- Contribution of entry `e` to the ehb total. -/
def entryEhb (e : Entry) : Rat :=
  if entryIsUntracked e then 0 else e.player.ehb.getD 0

lemma statusForDays_cases (d : Int) (t : Thresholds) :
    statusForDays d t = "active" ∨ statusForDays d t = "at_risk" ∨
    statusForDays d t = "inactive" ∨ statusForDays d t = "churned" := by
  unfold statusForDays
  split_ifs <;> simp

lemma classify_member_status_cases (lc : Option PyDatetime) (now : Int)
    (t : Thresholds) (co : List (String × String)) :
    (classify_member lc now t co).status = "unknown" ∨
    (classify_member lc now t co).status = "active" ∨
    (classify_member lc now t co).status = "at_risk" ∨
    (classify_member lc now t co).status = "inactive" ∨
    (classify_member lc now t co).status = "churned" := by
  cases lc with
  | none => simp [classify_member]
  | some dt =>
      have h := statusForDays_cases (days_since now dt) t
      simp only [classify_member]
      tauto

lemma Counts.total_inc (c : Counts) (s : String)
    (h : s = "active" ∨ s = "at_risk" ∨ s = "inactive" ∨ s = "churned" ∨
      s = "unknown" ∨ s = "untracked") :
    (c.inc s).total = c.total + 1 := by
  rcases h with h | h | h | h | h | h <;> subst h <;>
    simp [Counts.inc, Counts.total] <;> omega

lemma Counts.untracked_inc (c : Counts) (s : String) (h : s ≠ "untracked") :
    (c.inc s).untracked = c.untracked := by
  unfold Counts.inc
  split_ifs <;> simp_all

lemma classify_member_status_ne_untracked (lc : Option PyDatetime) (now : Int)
    (t : Thresholds) (co : List (String × String)) :
    (classify_member lc now t co).status ≠ "untracked" := by
  rcases classify_member_status_cases lc now t co with h | h | h | h | h <;>
    rw [h] <;> decide

lemma foldl_members (now : Int) (t : Thresholds) (co : List (String × String)) :
    ∀ (raw : List Entry) (st : LoopState),
      (raw.foldl (loopStep now t co) st).members =
        st.members ++ raw.map (mkMember now t co) := by
  intro raw
  induction raw with
  | nil => intro st; simp
  | cons e tl ih =>
      intro st
      rw [List.foldl_cons, ih, List.map_cons]
      by_cases h : entryIsUntracked e = true <;> simp [loopStep, h, mkMember]

lemma foldl_counts_total (now : Int) (t : Thresholds) (co : List (String × String)) :
    ∀ (raw : List Entry) (st : LoopState),
      (raw.foldl (loopStep now t co) st).counts.total =
        st.counts.total + raw.length := by
  intro raw
  induction raw with
  | nil => intro st; simp
  | cons e tl ih =>
      intro st
      rw [List.foldl_cons, ih]
      by_cases h : entryIsUntracked e = true
      · simp [loopStep, h, Counts.total]
        omega
      · have hs := classify_member_status_cases
          (parse_datetime e.player.lastChangedAt) now t co
        simp only [loopStep, h, Bool.false_eq_true, if_false]
        rw [Counts.total_inc _ _ (by tauto)]
        simp
        omega

lemma foldl_counts_untracked (now : Int) (t : Thresholds) (co : List (String × String)) :
    ∀ (raw : List Entry) (st : LoopState),
      (raw.foldl (loopStep now t co) st).counts.untracked =
        st.counts.untracked + raw.countP entryIsUntracked := by
  intro raw
  induction raw with
  | nil => intro st; simp
  | cons e tl ih =>
      intro st
      rw [List.foldl_cons, ih, List.countP_cons]
      by_cases h : entryIsUntracked e = true
      · simp [loopStep, h]
        omega
      · simp only [loopStep, h, Bool.false_eq_true, if_false]
        rw [Counts.untracked_inc _ _ (classify_member_status_ne_untracked _ _ _ _)]
        simp [h]

lemma foldl_totalsXp (now : Int) (t : Thresholds) (co : List (String × String)) :
    ∀ (raw : List Entry) (st : LoopState),
      (raw.foldl (loopStep now t co) st).totalsXp =
        st.totalsXp + (raw.map entryXp).sum := by
  intro raw
  induction raw with
  | nil => intro st; simp
  | cons e tl ih =>
      intro st
      by_cases h : entryIsUntracked e = true <;>
        simp [List.foldl, loopStep, h, ih, entryXp] <;> ring

lemma foldl_totalsEhp (now : Int) (t : Thresholds) (co : List (String × String)) :
    ∀ (raw : List Entry) (st : LoopState),
      (raw.foldl (loopStep now t co) st).totalsEhp =
        st.totalsEhp + (raw.map entryEhp).sum := by
  intro raw
  induction raw with
  | nil => intro st; simp
  | cons e tl ih =>
      intro st
      by_cases h : entryIsUntracked e = true <;>
        simp [List.foldl, loopStep, h, ih, entryEhp] <;> ring

lemma foldl_totalsEhb (now : Int) (t : Thresholds) (co : List (String × String)) :
    ∀ (raw : List Entry) (st : LoopState),
      (raw.foldl (loopStep now t co) st).totalsEhb =
        st.totalsEhb + (raw.map entryEhb).sum := by
  intro raw
  induction raw with
  | nil => intro st; simp
  | cons e tl ih =>
      intro st
      by_cases h : entryIsUntracked e = true <;>
        simp [List.foldl, loopStep, h, ih, entryEhb] <;> ring

/-- Entries filtered to the tracked ones contribute the same sum, because
untracked entries contribute zero. -/
lemma sum_map_filter_tracked {α : Type} [AddCommMonoid α] (f : Entry → α)
    (h0 : ∀ e, entryIsUntracked e = true → f e = 0) :
    ∀ raw : List Entry,
      ((raw.filter (fun e => !entryIsUntracked e)).map f).sum = (raw.map f).sum := by
  intro raw
  induction raw with
  | nil => simp
  | cons e tl ih =>
      by_cases h : entryIsUntracked e = true
      · simp [List.filter, h, ih, h0 e h]
      · simp [List.filter, h, ih]

lemma analyze_members_members (raw : List Entry) (now : Int) (t : Thresholds)
    (co : List (String × String)) :
    (analyze_members raw now t co).members = raw.map (mkMember now t co) := by
  simp [analyze_members, foldl_members]

lemma analyze_members_counts (raw : List Entry) (now : Int) (t : Thresholds)
    (co : List (String × String)) :
    (analyze_members raw now t co).counts =
      (raw.foldl (loopStep now t co) ⟨Counts.zero, 0, 0, 0, []⟩).counts := rfl

lemma analyze_members_counts_total (raw : List Entry) (now : Int) (t : Thresholds)
    (co : List (String × String)) :
    (analyze_members raw now t co).counts.total = raw.length := by
  rw [analyze_members_counts, foldl_counts_total]
  simp [Counts.zero, Counts.total]

lemma analyze_members_counts_untracked (raw : List Entry) (now : Int) (t : Thresholds)
    (co : List (String × String)) :
    (analyze_members raw now t co).counts.untracked = raw.countP entryIsUntracked := by
  rw [analyze_members_counts, foldl_counts_untracked]
  simp [Counts.zero]

lemma analyze_members_total_members (raw : List Entry) (now : Int) (t : Thresholds)
    (co : List (String × String)) :
    (analyze_members raw now t co).total_members =
      if raw.length = 0 then 1 else raw.length := by
  simp [analyze_members, foldl_members]

lemma analyze_members_tracked_members (raw : List Entry) (now : Int) (t : Thresholds)
    (co : List (String × String)) :
    (analyze_members raw now t co).tracked_members =
      ((analyze_members raw now t co).total_members : Int) -
        ((analyze_members raw now t co).counts.untracked : Int) := by
  simp [analyze_members]

lemma analyze_members_totals_xp (raw : List Entry) (now : Int) (t : Thresholds)
    (co : List (String × String)) :
    (analyze_members raw now t co).totals_xp = (raw.map entryXp).sum := by
  have h := foldl_totalsXp now t co raw ⟨Counts.zero, 0, 0, 0, []⟩
  simpa using h

lemma analyze_members_totals_ehp (raw : List Entry) (now : Int) (t : Thresholds)
    (co : List (String × String)) :
    (analyze_members raw now t co).totals_ehp = (raw.map entryEhp).sum := by
  have h := foldl_totalsEhp now t co raw ⟨Counts.zero, 0, 0, 0, []⟩
  simpa using h

lemma analyze_members_totals_ehb (raw : List Entry) (now : Int) (t : Thresholds)
    (co : List (String × String)) :
    (analyze_members raw now t co).totals_ehb = (raw.map entryEhb).sum := by
  have h := foldl_totalsEhb now t co raw ⟨Counts.zero, 0, 0, 0, []⟩
  simpa using h

lemma analyze_members_health (raw : List Entry) (now : Int) (t : Thresholds)
    (co : List (String × String)) :
    (analyze_members raw now t co).health_score =
      (if 0 < (analyze_members raw now t co).tracked_members
       then (weightTotal (analyze_members raw now t co).counts : Rat) /
            ((analyze_members raw now t co).tracked_members : Rat)
       else 0) := rfl

/-! ## Claim theorems -/

/-- C1 (amended): for every non-empty roster the six count values sum to
the returned `total_members`, and for every roster (empty included)
`tracked_members = total_members - counts["untracked"]`.  On the empty
roster the code reports `total_members = 1` (the `len(members) or 1`
division guard), while the counts sum to 0, so the original claim's
"including the empty roster" fails for the first equation. -/
theorem counts_sum_to_total_members (raw : List Entry) (now : Int)
    (t : Thresholds) (co : List (String × String)) :
    (raw ≠ [] →
      ((analyze_members raw now t co).counts).total =
        (analyze_members raw now t co).total_members) ∧
    (analyze_members raw now t co).tracked_members =
      ((analyze_members raw now t co).total_members : Int) -
        ((analyze_members raw now t co).counts.untracked : Int) := by
  constructor
  · intro h
    rw [analyze_members_counts_total, analyze_members_total_members]
    have hlen : raw.length ≠ 0 := by simpa using h
    simp [hlen]
  · exact analyze_members_tracked_members raw now t co

/-- C1 counterexample: on the empty roster `analyze_members` returns
`total_members = 1` while the counts sum to 0, refuting the claim's
"(including the empty roster)". -/
theorem counts_sum_to_total_members_cex :
    ¬ ((analyze_members [] 0 th0 []).counts.total =
        (analyze_members [] 0 th0 []).total_members) := by decide

/-- C1 witness on a concrete one-member roster. -/
theorem counts_sum_to_total_members_witness :
    (analyze_members [untrackedEntry] 0 th0 []).counts.total =
      (analyze_members [untrackedEntry] 0 th0 []).total_members :=
  (counts_sum_to_total_members [untrackedEntry] 0 th0 []).1 (by simp)

/-- C3: the health score is the weighted count sum — weights
`active=100, at_risk=50, inactive=20, churned=0, unknown=25`, untracked
omitted — divided by `tracked_members` when that is positive, and 0 when
`tracked_members` is 0. -/
theorem health_score_formula (raw : List Entry) (now : Int)
    (t : Thresholds) (co : List (String × String)) :
    (0 < (analyze_members raw now t co).tracked_members →
      (analyze_members raw now t co).health_score =
        ((100 * (analyze_members raw now t co).counts.active +
          50 * (analyze_members raw now t co).counts.at_risk +
          20 * (analyze_members raw now t co).counts.inactive +
          0 * (analyze_members raw now t co).counts.churned +
          25 * (analyze_members raw now t co).counts.unknown : Nat) : Rat) /
          ((analyze_members raw now t co).tracked_members : Rat)) ∧
    ((analyze_members raw now t co).tracked_members = 0 →
      (analyze_members raw now t co).health_score = 0) := by
  constructor
  · intro h
    rw [analyze_members_health, if_pos h]
    rfl
  · intro h
    rw [analyze_members_health, if_neg (by omega)]

/-- C3 witness on a concrete roster with one tracked member. -/
theorem health_score_formula_witness :
    (analyze_members [mkTestEntry none] 0 th0 []).health_score =
      ((100 * (analyze_members [mkTestEntry none] 0 th0 []).counts.active +
        50 * (analyze_members [mkTestEntry none] 0 th0 []).counts.at_risk +
        20 * (analyze_members [mkTestEntry none] 0 th0 []).counts.inactive +
        0 * (analyze_members [mkTestEntry none] 0 th0 []).counts.churned +
        25 * (analyze_members [mkTestEntry none] 0 th0 []).counts.unknown : Nat) : Rat) /
        ((analyze_members [mkTestEntry none] 0 th0 []).tracked_members : Rat) :=
  (health_score_formula [mkTestEntry none] 0 th0 []).1 (by decide)

/-- C4: an entry flagged untracked, or with no numeric experience value,
is reported with status `untracked`, `days_inactive = -1` and zero
xp/ehp/ehb whatever its timestamp; the totals equal those of the roster
with such entries removed, and for non-empty rosters the denominator
`tracked_members` is the number of non-untracked entries. -/
theorem untracked_bypass (raw : List Entry) (now : Int)
    (t : Thresholds) (co : List (String × String)) :
    (analyze_members raw now t co).members.length = raw.length ∧
    (∀ i (h : i < raw.length) (h2 : i < (analyze_members raw now t co).members.length),
      entryIsUntracked (raw.get ⟨i, h⟩) = true →
        ((analyze_members raw now t co).members.get ⟨i, h2⟩).status = "untracked" ∧
        ((analyze_members raw now t co).members.get ⟨i, h2⟩).days_inactive = -1 ∧
        ((analyze_members raw now t co).members.get ⟨i, h2⟩).xp = 0 ∧
        ((analyze_members raw now t co).members.get ⟨i, h2⟩).ehp = 0 ∧
        ((analyze_members raw now t co).members.get ⟨i, h2⟩).ehb = 0) ∧
    ((analyze_members raw now t co).totals_xp =
      (analyze_members (raw.filter (fun e => !entryIsUntracked e)) now t co).totals_xp ∧
     (analyze_members raw now t co).totals_ehp =
      (analyze_members (raw.filter (fun e => !entryIsUntracked e)) now t co).totals_ehp ∧
     (analyze_members raw now t co).totals_ehb =
      (analyze_members (raw.filter (fun e => !entryIsUntracked e)) now t co).totals_ehb) ∧
    (raw ≠ [] →
      (analyze_members raw now t co).tracked_members =
        ((raw.filter (fun e => !entryIsUntracked e)).length : Int)) := by
  refine ⟨?_, ?_, ⟨?_, ?_, ?_⟩, ?_⟩
  · rw [analyze_members_members]; simp
  · intro i h h2 hu
    have hm : (analyze_members raw now t co).members.get ⟨i, h2⟩ =
        mkMember now t co (raw.get ⟨i, h⟩) := by
      have := analyze_members_members raw now t co
      rw [List.get_of_eq this]
      simp
    rw [hm]
    simp only [List.get_eq_getElem] at hu
    simp [mkMember, hu, untrackedMember]
  · rw [analyze_members_totals_xp, analyze_members_totals_xp,
      sum_map_filter_tracked entryXp (by intro e he; simp [entryXp, he])]
  · rw [analyze_members_totals_ehp, analyze_members_totals_ehp,
      sum_map_filter_tracked entryEhp (by intro e he; simp [entryEhp, he])]
  · rw [analyze_members_totals_ehb, analyze_members_totals_ehb,
      sum_map_filter_tracked entryEhb (by intro e he; simp [entryEhb, he])]
  · intro h
    rw [analyze_members_tracked_members, analyze_members_total_members,
      analyze_members_counts_untracked]
    have hlen : raw.length ≠ 0 := by simpa using h
    rw [if_neg hlen]
    have hsplit : raw.countP entryIsUntracked +
        raw.countP (fun e => !entryIsUntracked e) = raw.length := by
      clear h hlen
      induction raw with
      | nil => rfl
      | cons e tl ih =>
          by_cases he : entryIsUntracked e = true <;>
            simp [List.countP_cons, he] <;> omega
    have hfl : (raw.filter (fun e => !entryIsUntracked e)).length =
        raw.countP (fun e => !entryIsUntracked e) :=
      (List.countP_eq_length_filter _ _).symm
    omega

/-- C4 witness on a roster with an untracked and a tracked entry. -/
theorem untracked_bypass_witness :
    ((analyze_members [untrackedEntry, mkTestEntry none] 0 th0 []).members.get
      ⟨0, by decide⟩).status = "untracked" :=
  ((untracked_bypass [untrackedEntry, mkTestEntry none] 0 th0 []).2.1 0
    (by decide) (by decide) (by decide)).1

/-! ## Classifier claim theorems -/

lemma statusForDays_active_iff (d : Int) (t : Thresholds) :
    statusForDays d t = "active" ↔ d ≤ t.active := by
  unfold statusForDays
  split_ifs <;> simp <;> omega

lemma statusForDays_at_risk_iff (d : Int) (t : Thresholds) :
    statusForDays d t = "at_risk" ↔ (t.active < d ∧ d ≤ t.at_risk) := by
  unfold statusForDays
  split_ifs <;> simp <;> omega

lemma statusForDays_inactive_iff (d : Int) (t : Thresholds) :
    statusForDays d t = "inactive" ↔
      (t.active < d ∧ t.at_risk < d ∧ d ≤ t.inactive) := by
  unfold statusForDays
  split_ifs <;> simp <;> omega

lemma statusForDays_churned_iff (d : Int) (t : Thresholds) :
    statusForDays d t = "churned" ↔
      (t.active < d ∧ t.at_risk < d ∧ t.inactive < d) := by
  unfold statusForDays
  split_ifs <;> simp <;> omega

/-- The claim's reading of the day computation: integer truncation toward
zero.  Stated from the spec's words, for comparison with the code's
floor division. -/
def days_truncated (now : Int) (dt : PyDatetime) : Int :=
  Int.tdiv (now - instantOf (fixTz dt)) usPerDay

/-- C2 (amended): absent timestamps yield `(unknown, -1, colors[unknown])`;
for present timestamps `days_inactive` is the floor-divided (toward
negative infinity, Python `timedelta.days`) day count — not the truncated
one the claim states; the status is the first match of the inclusive
ascending comparisons, and a negative day count classifies as `active`. -/
theorem classify_member_spec (now : Int) (t : Thresholds)
    (co : List (String × String))
    (h1 : t.active < t.at_risk) (h2 : t.at_risk < t.inactive)
    (h3 : 0 ≤ t.active) :
    classify_member none now t co =
      ⟨"unknown", -1, dictGetD co "unknown" "#95a5a6"⟩ ∧
    ∀ dt : PyDatetime,
      (classify_member (some dt) now t co).days_inactive =
        Int.fdiv (now - instantOf (fixTz dt)) usPerDay ∧
      ((classify_member (some dt) now t co).status = "active" ↔
        days_since now dt ≤ t.active) ∧
      ((classify_member (some dt) now t co).status = "at_risk" ↔
        (t.active < days_since now dt ∧ days_since now dt ≤ t.at_risk)) ∧
      ((classify_member (some dt) now t co).status = "inactive" ↔
        (t.at_risk < days_since now dt ∧ days_since now dt ≤ t.inactive)) ∧
      ((classify_member (some dt) now t co).status = "churned" ↔
        t.inactive < days_since now dt) ∧
      (days_since now dt < 0 →
        (classify_member (some dt) now t co).status = "active") := by
  refine ⟨rfl, fun dt => ?_⟩
  have hs : (classify_member (some dt) now t co).status =
      statusForDays (days_since now dt) t := rfl
  refine ⟨rfl, ?_, ?_, ?_, ?_, ?_⟩
  · rw [hs, statusForDays_active_iff]
  · rw [hs, statusForDays_at_risk_iff]
  · rw [hs, statusForDays_inactive_iff]
    constructor
    · exact fun h => ⟨h.2.1, h.2.2⟩
    · exact fun h => ⟨by omega, h.1, h.2⟩
  · rw [hs, statusForDays_churned_iff]
    constructor
    · exact fun h => h.2.2
    · exact fun h => ⟨by omega, by omega, h⟩
  · intro hneg
    rw [hs]
    exact (statusForDays_active_iff _ _).mpr (by omega)

/-- C2 counterexample: one hour in the future, the code's `timedelta.days`
floors to `-1` while the claim's truncation gives `0`. -/
theorem classify_member_days_truncated_cex :
    (classify_member (some ⟨3600000000, some 0⟩) 0 th0 []).days_inactive ≠
      days_truncated 0 ⟨3600000000, some 0⟩ := by decide

/-- C2 witness: a timestamp one day in the future classifies as active. -/
theorem classify_member_spec_witness :
    (classify_member (some ⟨86400000000, some 0⟩) 0 th0 []).status = "active" :=
  (((classify_member_spec 0 th0 [] (by decide) (by decide) (by decide)).2
    ⟨86400000000, some 0⟩).2.2.2.2.2) (by decide)

/-- Position of a status in the `active → at_risk → inactive → churned`
progression (other statuses last). -/
def statusRank (s : String) : Nat :=
  if s = "active" then 0
  else if s = "at_risk" then 1
  else if s = "inactive" then 2
  else if s = "churned" then 3
  else 4

lemma statusRank_statusForDays_mono (t : Thresholds) (d1 d2 : Int) (h : d1 ≤ d2) :
    statusRank (statusForDays d1 t) ≤ statusRank (statusForDays d2 t) := by
  unfold statusForDays
  split_ifs <;> simp [statusRank] <;> omega

/-- C9: for a fixed strictly increasing threshold configuration, a larger
day count never classifies to an earlier status in the
`active → at_risk → inactive → churned` order. -/
theorem classify_member_monotone (now : Int) (t : Thresholds)
    (co : List (String × String)) (lc1 lc2 : PyDatetime)
    (h1 : t.active < t.at_risk) (h2 : t.at_risk < t.inactive)
    (hle : days_since now lc1 ≤ days_since now lc2) :
    statusRank (classify_member (some lc1) now t co).status ≤
      statusRank (classify_member (some lc2) now t co).status := by
  have e1 : (classify_member (some lc1) now t co).status =
      statusForDays (days_since now lc1) t := rfl
  have e2 : (classify_member (some lc2) now t co).status =
      statusForDays (days_since now lc2) t := rfl
  rw [e1, e2]
  exact statusRank_statusForDays_mono t _ _ hle

/-- C9 witness: 0 days versus 10 days ago under the default thresholds. -/
theorem classify_member_monotone_witness :
    statusRank (classify_member (some ⟨0, some 0⟩) 0 th0 []).status ≤
      statusRank (classify_member (some ⟨-864000000000, some 0⟩) 0 th0 []).status :=
  classify_member_monotone 0 th0 [] ⟨0, some 0⟩ ⟨-864000000000, some 0⟩
    (by decide) (by decide) (by decide)

/-- C10: a timezone-naive datetime is classified exactly as the same
wall-clock datetime carrying an explicit UTC offset — `classify_member`
attaches the UTC zone before computing elapsed days. -/
theorem classify_member_naive_as_utc (now : Int) (t : Thresholds)
    (co : List (String × String)) (w : Int) :
    classify_member (some ⟨w, none⟩) now t co =
      classify_member (some ⟨w, some 0⟩) now t co := rfl

/-! ## Segmenter claim theorems -/

/-- A concrete member record carrying the `-1` sentinel. -/
def mSentinel : MemberOut :=
  ⟨"Bob", none, "member", 0, 0, 0, "regular", "main", "unknown", -1, "#95a5a6", none⟩

/-- A concrete member record `d` days inactive. -/
def mDays (d : Int) : MemberOut :=
  ⟨"Amy", none, "member", 10, 1, 2, "regular", "main", "active", d, "#2ecc71", none⟩

lemma pairwise_of_mem_rel {α : Type} {r : α → α → Prop} :
    ∀ (l : List α), (∀ a ∈ l, ∀ b ∈ l, r a b) → l.Pairwise r
  | [], _ => List.Pairwise.nil
  | x :: xs, h =>
      List.Pairwise.cons (fun b hb => h x (by simp) b (by simp [hb]))
        (pairwise_of_mem_rel xs fun a ha b hb => h a (by simp [ha]) b (by simp [hb]))

/-- C5: each requested threshold `d` maps to the percentage whose
numerator counts exactly the members with `0 ≤ days_inactive ≤ d`, over
the total member count (empty list guarded to 1); the `-1` sentinel never
satisfies the numerator predicate; every rate lies in `[0, 100]`. -/
theorem retention_rates_spec (members : List MemberOut) (periods : List Int)
    (d : Int) (hd : d ∈ periods) :
    (d, ((members.countP (fun m =>
        decide (0 ≤ m.days_inactive) && decide (m.days_inactive ≤ d)) : Nat) : Rat) /
        (((if members.length = 0 then 1 else members.length : Nat) : Nat) : Rat) * 100)
      ∈ get_retention_rates members periods ∧
    (∀ m ∈ members, m.days_inactive = -1 →
      (decide (0 ≤ m.days_inactive) && decide (m.days_inactive ≤ d)) = false) ∧
    (∀ p ∈ get_retention_rates members periods, 0 ≤ p.2 ∧ p.2 ≤ 100) := by
  refine ⟨?_, ?_, ?_⟩
  · simp only [get_retention_rates, List.mem_map]
    exact ⟨d, hd, rfl⟩
  · intro m _ h
    rw [h]
    simp
  · intro p hp
    simp only [get_retention_rates, List.mem_map] at hp
    obtain ⟨x, _, hx⟩ := hp
    subst hx
    set c : Nat := members.countP (fun m =>
      decide (0 ≤ m.days_inactive) && decide (m.days_inactive ≤ x)) with hc
    set T : Nat := if members.length = 0 then 1 else members.length with hT
    have hT0 : 0 < T := by
      rw [hT]; split <;> omega
    have hcT : c ≤ T := by
      have h1 : c ≤ members.length := List.countP_le_length _
      rw [hT]; split <;> omega
    have hTR : (0 : Rat) < (T : Rat) := by exact_mod_cast hT0
    constructor
    · positivity
    · have hdiv : (c : Rat) / (T : Rat) ≤ 1 :=
        (div_le_one hTR).mpr (by exact_mod_cast hcT)
      calc (c : Rat) / (T : Rat) * 100 ≤ 1 * 100 :=
            mul_le_mul_of_nonneg_right hdiv (by norm_num)
        _ = 100 := by norm_num

/-- C5 witness at threshold 7 on a one-member list. -/
theorem retention_rates_spec_witness :
    ((7 : Int), (([mDays 5].countP (fun m =>
        decide (0 ≤ m.days_inactive) && decide (m.days_inactive ≤ 7)) : Nat) : Rat) /
        ((((if ([mDays 5] : List MemberOut).length = 0 then 1
            else ([mDays 5] : List MemberOut).length : Nat) : Nat)) : Rat) * 100)
      ∈ get_retention_rates [mDays 5] [7] :=
  (retention_rates_spec [mDays 5] [7] 7 (by simp)).1

lemma bucket_indicator_sum (members : List MemberOut) :
    members.countP (fun m => decide ((0:Int) ≤ m.days_inactive) && decide (m.days_inactive ≤ 7)) +
    members.countP (fun m => decide ((8:Int) ≤ m.days_inactive) && decide (m.days_inactive ≤ 14)) +
    members.countP (fun m => decide ((15:Int) ≤ m.days_inactive) && decide (m.days_inactive ≤ 30)) +
    members.countP (fun m => decide ((31:Int) ≤ m.days_inactive) && decide (m.days_inactive ≤ 60)) +
    members.countP (fun m => decide ((61:Int) ≤ m.days_inactive) && decide (m.days_inactive ≤ 90)) +
    members.countP (fun m => decide ((91:Int) ≤ m.days_inactive) && decide (m.days_inactive ≤ 180)) +
    members.countP (fun m => decide ((181:Int) ≤ m.days_inactive) && decide (m.days_inactive ≤ 365)) +
    members.countP (fun m => decide ((366:Int) ≤ m.days_inactive) && decide (m.days_inactive ≤ 9999)) =
    members.countP (fun m => decide ((0:Int) ≤ m.days_inactive) && decide (m.days_inactive ≤ 9999)) := by
  induction members with
  | nil => rfl
  | cons m tl ih =>
      simp only [List.countP_cons, Bool.and_eq_true, decide_eq_true_eq]
      split_ifs <;> omega

/-- C6: the histogram uses the fixed boundary table; the bucket counts sum
to the number of members with `days_inactive ∈ [0, 9999]`; the `-1`
sentinel falls in no bucket; each percentage divides the bucket count by
the full member-list length (empty guarded to 1). -/
theorem activity_buckets_spec (members : List MemberOut) :
    ((get_activity_buckets members).map Bucket.count).sum =
      members.countP (fun m =>
        decide (0 ≤ m.days_inactive) && decide (m.days_inactive ≤ 9999)) ∧
    (∀ m ∈ members, m.days_inactive = -1 →
      ∀ b ∈ bucketBounds, ¬ (b.1 ≤ m.days_inactive ∧ m.days_inactive ≤ b.2.1)) ∧
    (∀ bk ∈ get_activity_buckets members,
      bk.pct = (bk.count : Rat) /
        (((if members.length = 0 then 1 else members.length : Nat) : Nat) : Rat) * 100) ∧
    (get_activity_buckets members).map Bucket.label =
      ["0-7d", "8-14d", "15-30d", "31-60d", "61-90d", "91-180d", "181-365d", "1y+"] := by
  refine ⟨?_, ?_, ?_, ?_⟩
  · have h := bucket_indicator_sum members
    simp only [get_activity_buckets, bucketBounds, List.map_cons, List.map_nil,
      List.sum_cons, List.sum_nil]
    omega
  · intro m _ h b hb
    rw [h]
    fin_cases hb <;> decide
  · intro bk hbk
    simp only [get_activity_buckets, bucketBounds, List.mem_map] at hbk
    obtain ⟨x, _, hx⟩ := hbk
    subst hx
    rfl
  · rfl

/-- C6 witness: the sentinel member lies in no bucket. -/
theorem activity_buckets_spec_witness :
    ¬ (((0:Int), (7:Int), "0-7d").1 ≤ mSentinel.days_inactive ∧
        mSentinel.days_inactive ≤ ((0:Int), (7:Int), "0-7d").2.1) :=
  (activity_buckets_spec [mSentinel]).2.1 mSentinel (by simp) rfl
    ((0:Int), (7:Int), "0-7d") (by decide)

/-- C7: the churn-risk filter returns exactly the members within
`[min_days, max_days]` (defaults 14 and 90), in non-increasing
`days_inactive` order, with equal-day members kept in input order (the
subsequence at each fixed day count equals the input-order filter). -/
theorem at_risk_members_spec (members : List MemberOut) (min_days max_days : Int) :
    (get_at_risk_members members min_days max_days).Perm
      (members.filter (atRiskPred min_days max_days)) ∧
    (get_at_risk_members members min_days max_days).Pairwise
      (fun a b => b.days_inactive ≤ a.days_inactive) ∧
    (∀ d : Int,
      (get_at_risk_members members min_days max_days).filter
        (fun m => decide (m.days_inactive = d)) =
      (members.filter (atRiskPred min_days max_days)).filter
        (fun m => decide (m.days_inactive = d))) ∧
    get_at_risk_members members = get_at_risk_members members 14 90 := by
  refine ⟨?_, ?_, ?_, rfl⟩
  · exact List.perm_insertionSort riskOrder _
  · exact List.sorted_insertionSort riskOrder _
  · intro d
    set fl := members.filter (atRiskPred min_days max_days) with hfl
    set q : MemberOut → Bool := fun m => decide (m.days_inactive = d) with hq
    have hall : ∀ a ∈ fl.filter q, a.days_inactive = d := by
      intro a ha
      have := (List.mem_filter.mp ha).2
      simpa [hq] using this
    have hBpw : (fl.filter q).Pairwise riskOrder := by
      apply pairwise_of_mem_rel
      intro a ha b hb
      unfold riskOrder
      rw [hall a ha, hall b hb]
    have hBout : List.Sublist (fl.filter q)
        (get_at_risk_members members min_days max_days) :=
      List.sublist_insertionSort hBpw (List.filter_sublist fl)
    have hBq : (fl.filter q).filter q = fl.filter q :=
      List.filter_eq_self.mpr (fun a ha => (List.mem_filter.mp ha).2)
    have h1 : List.Sublist (fl.filter q)
        ((get_at_risk_members members min_days max_days).filter q) := by
      have h2 := hBout.filter q
      rwa [hBq] at h2
    have hlen : ((get_at_risk_members members min_days max_days).filter q).length =
        (fl.filter q).length :=
      ((List.perm_insertionSort riskOrder fl).filter q).length_eq
    exact (h1.eq_of_length hlen.symm).symm

/-! ## Temporal parser claim theorem -/

/-- C8 (amended): `parse_datetime` is a total function — null, empty and
unparseable inputs yield `none` rather than an error; a trailing literal
`Z` is rewritten to the `+00:00` UTC offset before parsing; but a string
that parses successfully *without* an explicit offset yields a
timezone-naive result (the original claim's "every successfully parsed
result is a timezone-aware instant" fails; the classifier later treats
naive results as UTC). -/
theorem parse_datetime_spec (v : String) :
    parse_datetime none = none ∧
    parse_datetime (some "") = none ∧
    (v.data ≠ [] → v.data.getLast? = some 'Z' →
      parse_datetime (some v) =
        fromisoformat (v.data.dropLast ++ ['+', '0', '0', ':', '0', '0'])) ∧
    parse_datetime (some "not a date") = none ∧
    (parse_datetime (some "2024-03-05T06:30:00Z")).map PyDatetime.tzoffset =
      some (some 0) := by
  refine ⟨rfl, rfl, ?_, by decide, by decide⟩
  intro h1 h2
  simp only [parse_datetime]
  rw [if_neg h1, if_pos h2]

/-- C8 counterexample: an offset-less timestamp parses successfully to a
timezone-naive datetime, refuting "every successfully parsed result is a
timezone-aware instant". -/
theorem parse_datetime_aware_cex :
    (parse_datetime (some "2024-03-05T06:30:00")).map PyDatetime.tzoffset =
      some none := by decide

/-- C8 witness: the `Z`-rewrite equation at a concrete timestamp. -/
theorem parse_datetime_spec_witness :
    parse_datetime (some "2024-03-05T06:30:00Z") =
      fromisoformat (("2024-03-05T06:30:00Z").data.dropLast ++
        ['+', '0', '0', ':', '0', '0']) :=
  (parse_datetime_spec "2024-03-05T06:30:00Z").2.2.1 (by decide) (by decide)
